import Mathlib

/-!
Shallow embedding of the apple-filter-sorter repository (src/file-sort.py).

Pure string and list helpers mirror the Python helpers character for
character; the effectful parts (filesystem, subprocess calls, the OCR and
PDF libraries, the external assistant) are modelled as explicit environment
records whose fields stand for the outcomes of the external calls, and as
explicit state records for the filesystem and the CSV audit log.
-/

namespace FileSort

/-- Python c.isspace for the whitespace characters stripped by str.strip(). -/
def pyIsSpace (c : Char) : Bool :=
  c = ' ' || c = '\t' || c = '\n' || c = '\r' || c = '\x0b' || c = '\x0c'

/-- Remove leading and trailing characters satisfying p, as the Python
str.strip family does. -/
def stripWhile (p : Char → Bool) (s : String) : String :=
  String.mk (((s.data.dropWhile p).reverse.dropWhile p).reverse)

/-- Python str.strip() with no argument: strip whitespace from both ends. -/
def pyStrip (s : String) : String := stripWhile pyIsSpace s

/-- Python str.strip(c) for a single stripped character c. -/
def stripChar (s : String) (c : Char) : String := stripWhile (fun d => d = c) s

/-- The single-quote character, written by code point. -/
def squote : Char := Char.ofNat 39

/-- The double-quote character, written by code point. -/
def dquote : Char := Char.ofNat 34

/-- The cleanup chain result.strip().strip(dquote).strip(squote) that
file-sort.py applies to assistant responses before parsing them. -/
def strip_response (s : String) : String := stripChar (stripChar (pyStrip s) dquote) squote

/-- Python str.split for the single-character separator slash, on character
lists: always returns at least one (possibly empty) piece. -/
def splitSlashChars : List Char → List (List Char)
  | [] => [[]]
  | c :: cs =>
    let r := splitSlashChars cs
    if c = '/' then [] :: r
    else
      match r with
      | [] => [[c]]
      | h :: t => (c :: h) :: t

/-- Python result.split(slash) returning strings. -/
def pySplitSlash (s : String) : List String := (splitSlashChars s.data).map String.mk

/-- Python slash.join(parts). -/
def joinSlash : List String → String
  | [] => ""
  | [x] => x
  | x :: xs => x ++ "/" ++ joinSlash xs

/-- The static taxonomy CATEGORY_STRUCTURE from file-sort.py: category key
paired with the optional list of valid subcategories. -/
def CATEGORY_STRUCTURE : List (String × Option (List String)) :=
  [("Medical", some ["Anthony", "Hannah", "Oliver", "Roman"]),
   ("Financial/Bills", some ["HOA", "Electric", "Gas", "Water", "Internet", "Lawn", "Storage", "Health", "Medical"]),
   ("Financial/Cards", some ["Chase", "Target", "Sams Club"]),
   ("Financial/Checks", none),
   ("Financial/Class Action", none),
   ("Financial/Home Maintenance", some ["HVAC", "Pool"]),
   ("Financial/Insurance", some ["Auto Home", "Health Dental Vision"]),
   ("Financial/Investments", some ["401k", "Roth IRA", "Stocks"]),
   ("Financial/Legal", none),
   ("Financial/Mortgage", none),
   ("Financial/Paystubs", none),
   ("Financial/Receipts", none),
   ("Financial/Taxes", none),
   ("Financial/Tolls", none),
   ("Financial/Misc", none),
   ("Career", some ["Certifications", "Resumes", "Business Cards"]),
   ("Cars", some ["2021 Sequoia", "2022 Accord"]),
   ("Kids/School", none),
   ("Personal/Government Documents", none),
   ("Personal/Letters", none),
   ("Personal/Spiritual", none),
   ("Purchases/Tickets", none),
   ("Purchases/Product Manuals", some ["Appliances", "Home", "Tools", "Toys", "Music", "Baby Products", "Amazon Basics"]),
   ("Purchases/Other", none),
   ("Sheet Music", none),
   ("Recipes", none),
   ("User Manuals", none),
   ("Misc", none)]

/-- The Python membership test potential_category in CATEGORY_STRUCTURE. -/
def isKnownCategory (c : String) : Bool :=
  CATEGORY_STRUCTURE.any (fun kv => kv.1 == c)

/-- The response-parsing tail of classify_file_category, applied to the
truthy raw assistant response. -/
def parse_category_response (result : String) : Option String × Option String :=
  match pySplitSlash (strip_response result) with
  | [p] => (some p, none)
  | [p0, p1] =>
    if isKnownCategory (p0 ++ "/" ++ p1) then (some (p0 ++ "/" ++ p1), none)
    else (some p0, some p1)
  | p0 :: p1 :: rest =>
    if isKnownCategory (p0 ++ "/" ++ p1) then (some (p0 ++ "/" ++ p1), some (joinSlash rest))
    else (some p0, some (joinSlash (p1 :: rest)))
  | [] => (some (strip_response result), none)

/-- classify_file_category from file-sort.py, as a function of the assistant
response (none models a failed call; a falsy empty response also yields the
pair of nones). -/
def classify_file_category : Option String → Option String × Option String
  | none => (none, none)
  | some result =>
    if result = "" then (none, none)
    else parse_category_response result

/-- C1: the classification parser applies the longest-known-prefix rule: the
response Financial/Bills/Electric yields category Financial/Bills with
subcategory Electric, the response Misc yields category Misc with no
subcategory, any single-segment response is the whole category, and a
two-segment response Part0/Part1 stays whole as the category exactly when it
is itself a taxonomy key, otherwise Part0 is the category and Part1 the
subcategory. -/
theorem C1_parse_longest_known_category :
    classify_file_category (some ("Financial/Bills/Electric")) = (some ("Financial/Bills"), some ("Electric")) ∧
    classify_file_category (some ("Misc")) = (some ("Misc"), none) ∧
    (∀ r p, r ≠ "" → pySplitSlash (strip_response r) = [p] →
      classify_file_category (some r) = (some p, none)) ∧
    (∀ r p0 p1, r ≠ "" → pySplitSlash (strip_response r) = [p0, p1] →
      classify_file_category (some r) =
        (if isKnownCategory (p0 ++ "/" ++ p1) then (some (p0 ++ "/" ++ p1), none)
         else (some p0, some p1))) := by
  refine ⟨by decide, by decide, ?_, ?_⟩
  · intro r p hne hsplit
    simp only [classify_file_category, if_neg hne, parse_category_response, hsplit]
  · intro r p0 p1 hne hsplit
    simp only [classify_file_category, if_neg hne, parse_category_response, hsplit]

/-- C1 witness: the theorem applied to the concrete two-segment response
Financial/Cards, surrounded by whitespace, which is itself a taxonomy key. -/
theorem C1_parse_longest_known_category_witness :
    classify_file_category (some (" Financial/Cards ")) = (some ("Financial/Cards"), none) := by
  have h := C1_parse_longest_known_category.2.2.2 (" Financial/Cards ") ("Financial") ("Cards")
    (by decide) (by decide)
  rw [h]
  decide

/-- C10: a response with three or more slash-separated parts whose two-part
head is not a taxonomy key yields the first part alone as category and the
remaining parts re-joined with slashes as subcategory. -/
theorem C10_parse_deep_unknown_head :
    ∀ r p0 p1 rest, r ≠ "" → pySplitSlash (strip_response r) = p0 :: p1 :: rest →
      rest ≠ [] → isKnownCategory (p0 ++ "/" ++ p1) = false →
      classify_file_category (some r) = (some p0, some (joinSlash (p1 :: rest))) := by
  intro r p0 p1 rest hne hsplit hrest hunk
  cases rest with
  | nil => exact absurd rfl hrest
  | cons q qs =>
    simp only [classify_file_category, if_neg hne, parse_category_response, hsplit, hunk]
    simp

/-- C10 witness: the theorem applied to the concrete response Alpha/Beta/Gamma,
whose head Alpha/Beta is not a taxonomy key. -/
theorem C10_parse_deep_unknown_head_witness :
    classify_file_category (some ("Alpha/Beta/Gamma")) = (some ("Alpha"), some ("Beta/Gamma")) := by
  have h := C10_parse_deep_unknown_head ("Alpha/Beta/Gamma") ("Alpha") ("Beta") (["Gamma"])
    (by decide) (by decide) (by decide) (by decide)
  rw [h]
  decide

/-! Availability resolver: ensure_file_downloaded from file-sort.py. -/

/-- Result of the availability resolver, as seen by its caller: the Python
function returns False (unavailable), True (original path readable) or the
temp Path (scratch copy to be used). -/
inductive DownloadResult
  | unavailable
  | readyOriginal
  | readyScratch
deriving DecidableEq

/-- Environment of outcomes of the external calls made by
ensure_file_downloaded: copyResult is some size when shutil.copy2 eventually
succeeds within its five attempts, producing a scratch file of that size,
and none when every attempt raises; origReadable is whether the subsequent
test read of the original path succeeds; directReadOk is whether the
method-3 chunked direct read of the original succeeds. -/
structure EnsureEnv where
  copyResult : Option Nat
  origReadable : Bool
  directReadOk : Bool
deriving DecidableEq

/-- Outcome of the availability resolver: the returned value plus whether
the resolver itself unlinked the scratch copy. -/
structure EnsureOutcome where
  result : DownloadResult
  scratchDeleted : Bool
deriving DecidableEq

/-- ensure_file_downloaded from file-sort.py: method 2 copies to a scratch
file; a non-empty scratch with a now-readable original is deleted and the
original reported ready; a non-empty scratch with an unreadable original is
handed to the caller; an empty scratch is deleted and reported unavailable;
a failed copy falls back to the method-3 direct read. -/
def ensure_file_downloaded (env : EnsureEnv) : EnsureOutcome :=
  match env.copyResult with
  | some size =>
    if size > 0 then
      if env.origReadable then ⟨DownloadResult.readyOriginal, true⟩
      else ⟨DownloadResult.readyScratch, false⟩
    else ⟨DownloadResult.unavailable, true⟩
  | none =>
    if env.directReadOk then ⟨DownloadResult.readyOriginal, false⟩
    else ⟨DownloadResult.unavailable, false⟩

/-- C9: whenever the scratch copy is non-empty, a readable original means the
scratch copy is deleted and Ready(original) is reported, while an unreadable
original means Ready(scratch) is reported with the scratch file left in
place. -/
theorem C9_scratch_copy_resolution :
    ∀ (env : EnsureEnv) (size : Nat), env.copyResult = some size → 0 < size →
      (env.origReadable = true →
        ensure_file_downloaded env = ⟨DownloadResult.readyOriginal, true⟩) ∧
      (env.origReadable = false →
        ensure_file_downloaded env = ⟨DownloadResult.readyScratch, false⟩) := by
  intro env size hcopy hpos
  constructor
  · intro hread
    simp [ensure_file_downloaded, hcopy, hpos, hread]
  · intro hread
    simp [ensure_file_downloaded, hcopy, hpos, hread]

/-- C9 witness: the theorem applied to a concrete environment with a 100-byte
scratch copy and an original that stays unreadable. -/
theorem C9_scratch_copy_resolution_witness :
    ensure_file_downloaded ⟨some 100, false, false⟩ = ⟨DownloadResult.readyScratch, false⟩ := by
  exact (C9_scratch_copy_resolution ⟨some 100, false, false⟩ 100 rfl (by decide)).2 rfl

/-! Text extractor: extract_text_from_pdf from file-sort.py. -/

/-- Outcome of the OCR stage in extract_text_from_pdf: the import of
pytesseract or pdf2image fails, the conversion or recognition raises, or
the per-page recognition completes and yields the concatenated text. -/
inductive OcrResult
  | libsMissing
  | raised
  | pages (t : String)
deriving DecidableEq

/-- Whether the OCR stage ends in one of its two exception handlers. -/
def ocrFailed : OcrResult → Bool
  | OcrResult.libsMissing => true
  | OcrResult.raised => true
  | OcrResult.pages _ => false

/-- Environment of external outcomes for one run of extract_text_from_pdf:
the availability resolver result, the text accumulated by the PyPDF2 block
(empty when the library is missing or nothing is extracted), the pdfplumber
replacement text (none when the library is missing or the open raises before
the accumulator is reset), the OCR outcome, and whether the final unlink of
the scratch file succeeds. -/
structure ExtractEnv where
  download : DownloadResult
  stageA : String
  stageB : Option String
  ocr : OcrResult
  deleteOk : Bool
deriving DecidableEq

/-- Observable outcome of extract_text_from_pdf: the returned text, the
accumulated text after the PyPDF2 block and after the pdfplumber block,
whether the pdfplumber and OCR stages were entered, whether a scratch copy
was in use, and whether it was deleted by the end of the call. -/
structure ExtractOutcome where
  text : String
  textA : String
  textB : String
  stageBAttempted : Bool
  ocrAttempted : Bool
  usedTemp : Bool
  tempDeleted : Bool
deriving DecidableEq

/-- extract_text_from_pdf from file-sort.py: abort on an unavailable file;
run PyPDF2; run pdfplumber only when the stripped text so far is shorter
than 50 characters; run OCR under the same 50-character guard, where a
failed library load or an exception returns the empty string immediately, before
the scratch-file cleanup; otherwise strip and return the text after
unlinking the scratch copy when one was used. -/
def extract_text_from_pdf (env : ExtractEnv) : ExtractOutcome :=
  if env.download = DownloadResult.unavailable then
    ⟨"", "", "", false, false, false, false⟩
  else
    let use_temp := decide (env.download = DownloadResult.readyScratch)
    let tA := env.stageA
    let bAtt := decide ((pyStrip tA).length < 50)
    let tB := if bAtt then (match env.stageB with | some t => t | none => tA) else tA
    let cAtt := decide ((pyStrip tB).length < 50)
    if cAtt then
      match env.ocr with
      | OcrResult.pages t3 => ⟨pyStrip t3, tA, tB, bAtt, true, use_temp, use_temp && env.deleteOk⟩
      | _ => ⟨"", tA, tB, bAtt, true, use_temp, false⟩
    else
      ⟨pyStrip tB, tA, tB, bAtt, false, use_temp, use_temp && env.deleteOk⟩

/-- C2: the extraction cascade short-circuits: when the PyPDF2 stage yields
at least 50 characters after stripping, neither pdfplumber nor OCR is
entered; in general each later stage is entered exactly when the text
accumulated so far is shorter than 50 stripped characters. -/
theorem C2_cascade_short_circuit :
    ∀ env : ExtractEnv, env.download ≠ DownloadResult.unavailable →
      ((extract_text_from_pdf env).stageBAttempted = decide ((pyStrip env.stageA).length < 50)) ∧
      ((extract_text_from_pdf env).ocrAttempted =
        decide ((pyStrip (extract_text_from_pdf env).textB).length < 50)) ∧
      (50 ≤ (pyStrip env.stageA).length →
        (extract_text_from_pdf env).stageBAttempted = false ∧
        (extract_text_from_pdf env).ocrAttempted = false) := by
  intro env hdl
  by_cases hA : (pyStrip env.stageA).length < 50 <;>
    by_cases hB : (pyStrip (match env.stageB with | some t => t | none => env.stageA)).length < 50 <;>
      cases hocr : env.ocr <;>
        simp [extract_text_from_pdf, hdl, hA, hB, hocr]

/-- C2 witness: the theorem applied to a concrete run whose PyPDF2 stage
extracts well over 50 characters; the later stages are not entered. -/
theorem C2_cascade_short_circuit_witness :
    (extract_text_from_pdf ⟨DownloadResult.readyOriginal,
      ("This is a long invoice text extracted by PyPDF2 with more than fifty characters."),
      none, OcrResult.libsMissing, true⟩).stageBAttempted = false ∧
    (extract_text_from_pdf ⟨DownloadResult.readyOriginal,
      ("This is a long invoice text extracted by PyPDF2 with more than fifty characters."),
      none, OcrResult.libsMissing, true⟩).ocrAttempted = false := by
  exact (C2_cascade_short_circuit ⟨DownloadResult.readyOriginal,
    ("This is a long invoice text extracted by PyPDF2 with more than fifty characters."),
    none, OcrResult.libsMissing, true⟩ (by decide)).2.2 (by decide)

/-- C3 counterexample: a run that uses the scratch copy and then finds the
OCR libraries missing returns early without deleting the scratch file, even
though the unlink itself would have succeeded. -/
theorem C3_counterexample :
    (extract_text_from_pdf ⟨DownloadResult.readyScratch, "", none, OcrResult.libsMissing, true⟩).usedTemp = true ∧
    (extract_text_from_pdf ⟨DownloadResult.readyScratch, "", none, OcrResult.libsMissing, true⟩).tempDeleted = false := by
  decide

/-- C3 amended: in a scratch-copy run the scratch file is deleted exactly
when the unlink succeeds and the run does not take one of the two early OCR
exception returns (libraries missing, or conversion/recognition raising);
on those early returns the scratch file is left behind; and a failing
unlink is never fatal: the returned text does not depend on it. -/
theorem C3_scratch_cleanup_amended :
    ∀ env : ExtractEnv, env.download = DownloadResult.readyScratch →
      ((extract_text_from_pdf env).tempDeleted =
        (!((extract_text_from_pdf env).ocrAttempted && ocrFailed env.ocr) && env.deleteOk)) ∧
      ((extract_text_from_pdf ⟨env.download, env.stageA, env.stageB, env.ocr, false⟩).text =
        (extract_text_from_pdf ⟨env.download, env.stageA, env.stageB, env.ocr, true⟩).text) := by
  intro env hdl
  by_cases hA : (pyStrip env.stageA).length < 50 <;>
    by_cases hB : (pyStrip (match env.stageB with | some t => t | none => env.stageA)).length < 50 <;>
      cases hocr : env.ocr <;>
        simp [extract_text_from_pdf, hdl, hA, hB, hocr, ocrFailed]

/-- C3 amended witness: the theorem applied to a concrete scratch-copy run
in which OCR completes; the scratch file is deleted. -/
theorem C3_scratch_cleanup_amended_witness :
    (extract_text_from_pdf ⟨DownloadResult.readyScratch, "", none,
      OcrResult.pages ("scanned page text recognised by tesseract"), true⟩).tempDeleted =
      (!((extract_text_from_pdf ⟨DownloadResult.readyScratch, "", none,
        OcrResult.pages ("scanned page text recognised by tesseract"), true⟩).ocrAttempted &&
        ocrFailed (OcrResult.pages ("scanned page text recognised by tesseract"))) && true) := by
  exact (C3_scratch_cleanup_amended ⟨DownloadResult.readyScratch, "", none,
    OcrResult.pages ("scanned page text recognised by tesseract"), true⟩ rfl).1

/-! Audit log: log_file_move from file-sort.py, modelled on the full CSV
file contents (none models a file that does not exist yet; each row is a
list of cells). -/

/-- The CSV header row written and recognised by log_file_move. -/
def CSV_HEADER : List String := ["DateTime", "Old Filename", "New Filename", "Destination"]

/-- The read-and-skip-header phase of log_file_move: an absent or empty file
contributes no rows; a first row equal to the header is skipped; any other
first row is kept as data. -/
def readExistingEntries : Option (List (List String)) → List (List String)
  | none => []
  | some [] => []
  | some (h :: rest) => if h = CSV_HEADER then rest else h :: rest

/-- log_file_move from file-sort.py: the whole file is rewritten as the
header, then the new entry, then all previously existing entries. -/
def log_file_move (csv : Option (List (List String)))
    (timestamp old_filename new_filename destination : String) : List (List String) :=
  CSV_HEADER :: [timestamp, old_filename, new_filename, destination] :: readExistingEntries csv

/-- One audit event: timestamp, old filename, new filename, destination. -/
structure MoveEvent where
  timestamp : String
  oldName : String
  newName : String
  destination : String
deriving DecidableEq

/-- The CSV row written for one audit event. -/
def eventRow (e : MoveEvent) : List String := [e.timestamp, e.oldName, e.newName, e.destination]

/-- A sequence of appends to the audit log, oldest first. -/
def appendMoves (csv : Option (List (List String))) : List MoveEvent → Option (List (List String))
  | [] => csv
  | e :: es => appendMoves (some (log_file_move csv e.timestamp e.oldName e.newName e.destination)) es

/-- C6: appending a non-empty sequence of audit records to any prior log
state and reading the log back yields the header row, then the new records
newest first, then every previously present data row; each append rewrites
the whole file, which the equation exhibits as the full file contents. -/
theorem C6_audit_log_round_trip :
    ∀ (csv : Option (List (List String))) (e : MoveEvent) (es : List MoveEvent),
      appendMoves csv (e :: es) =
        some (CSV_HEADER :: (((e :: es).reverse.map eventRow) ++ readExistingEntries csv)) := by
  intro csv e es
  induction es generalizing csv e with
  | nil => simp [appendMoves, log_file_move, eventRow]
  | cons f fs ih =>
    have step : appendMoves csv (e :: f :: fs) =
        appendMoves (some (log_file_move csv e.timestamp e.oldName e.newName e.destination)) (f :: fs) := rfl
    rw [step, ih]
    simp [readExistingEntries, log_file_move, eventRow]

/-! Filing engine, destination resolution: get_folder_path_for_category and
its tables from file-sort.py. -/

/-- The fixed base path for all destination folders. -/
def DOCUMENTS_BASE_PATH : String :=
  "/Users/anthonywheeler/Library/Mobile Documents/com~apple~CloudDocs/Documents"

/-- pathlib-style joining of one further path component. -/
def joinPath (a b : String) : String := a ++ "/" ++ b

/-- Python str.startswith via character lists. -/
def strStartsWith (s p : String) : Bool := p.data.isPrefixOf s.data

/-- Python dict.get(key, default) over a small table. -/
def tableGet : List (String × String) → String → Option String
  | [], _ => none
  | (k, v) :: t, key => if k = key then some v else tableGet t key

/-- The folder_name_map applied to the second component of Financial
categories. -/
def folder_name_map : List (String × String) :=
  [("Bills", "Bills"), ("Cards", "Cards"), ("Checks", "Checks"),
   ("Class Action", "Class Action"), ("Home Maintenance", "Home Maintenance"),
   ("Insurance", "Insurance"), ("Investments", "Investments"), ("Legal", "Legal"),
   ("Mortgage", "Mortgage"), ("Paystubs", "Paystubs"), ("Receipts", "Receipts"),
   ("Taxes", "Taxes"), ("Tolls", "Tolls"), ("Misc", "Misc.")]

/-- The subcat_folder_map with display-name overrides for three Financial
subcategory labels. -/
def subcat_folder_map : List (String × String) :=
  [("Sams Club", "Sam\x27s Club"), ("Auto Home", "Encompass:Safeco"),
   ("Health Dental Vision", "Health:Dental:Vision")]

/-- The Python pattern if subcategory: append it as one more component when
it is truthy (not None and not empty). -/
def appendSubIfTruthy (path : String) : Option String → String
  | some s => if s = "" then path else joinPath path s
  | none => path

/-- get_folder_path_for_category from file-sort.py: dispatch on the category
string by equality and prefix tests, with the two remapping tables for
Financial folders, and a final catch-all branch. -/
def get_folder_path_for_category (category : String) (subcategory : Option String) : String :=
  let base := DOCUMENTS_BASE_PATH
  let category_parts := pySplitSlash category
  if category = "Medical" then
    appendSubIfTruthy (joinPath base ("Medical")) subcategory
  else if strStartsWith category ("Financial/") then
    let subcat_name := category_parts.getD 1 ""
    let folder_name := (tableGet folder_name_map subcat_name).getD subcat_name
    let path := joinPath (joinPath base ("Financial")) folder_name
    match subcategory with
    | some s => if s = "" then path else joinPath path ((tableGet subcat_folder_map s).getD s)
    | none => path
  else if category = "Career" then
    appendSubIfTruthy (joinPath base ("Career")) subcategory
  else if category = "Cars" then
    appendSubIfTruthy (joinPath base ("Cars")) subcategory
  else if strStartsWith category ("Kids/") then
    joinPath (joinPath base ("Kids")) (category_parts.getD 1 "")
  else if strStartsWith category ("Personal/") then
    joinPath (joinPath base ("Personal")) (category_parts.getD 1 "")
  else if strStartsWith category ("Purchases/") then
    appendSubIfTruthy (joinPath (joinPath base ("Purchases")) (category_parts.getD 1 "")) subcategory
  else if category = "Sheet Music" then joinPath base ("Sheet Music")
  else if category = "Recipes" then joinPath base ("Recipes")
  else if category = "User Manuals" then joinPath base ("User Manuals")
  else if category = "Misc" then joinPath base ("Misc. ")
  else joinPath base ("Misc. ")

/-- C7 counterexample: the category Financial/Foo is not a taxonomy key,
yet destination resolution does not send it to the catch-all folder: the
Financial prefix branch fires first and builds a Financial subfolder. -/
theorem C7_counterexample :
    isKnownCategory ("Financial/Foo") = false ∧
    get_folder_path_for_category ("Financial/Foo") none ≠
      joinPath DOCUMENTS_BASE_PATH ("Misc. ") := by
  decide

/-- C7 amended: a category that is not a taxonomy key is mapped to the
catch-all folder provided it also matches none of the recognised nested
prefixes Financial/, Kids/, Personal/ and Purchases/; an unknown category
that starts with one of those prefixes is instead mapped inside that
family using the unknown remainder as the folder name. -/
theorem C7_unknown_category_catch_all_amended :
    ∀ (category : String) (subcategory : Option String),
      isKnownCategory category = false →
      strStartsWith category ("Financial/") = false →
      strStartsWith category ("Kids/") = false →
      strStartsWith category ("Personal/") = false →
      strStartsWith category ("Purchases/") = false →
      get_folder_path_for_category category subcategory =
        joinPath DOCUMENTS_BASE_PATH ("Misc. ") := by
  intro c sub hk hf hkids hpers hpur
  have hm : c ≠ "Medical" := fun h => absurd (h ▸ hk) (by decide)
  have hcar : c ≠ "Career" := fun h => absurd (h ▸ hk) (by decide)
  have hcars : c ≠ "Cars" := fun h => absurd (h ▸ hk) (by decide)
  have hsm : c ≠ "Sheet Music" := fun h => absurd (h ▸ hk) (by decide)
  have hrec : c ≠ "Recipes" := fun h => absurd (h ▸ hk) (by decide)
  have hum : c ≠ "User Manuals" := fun h => absurd (h ▸ hk) (by decide)
  have hmisc : c ≠ "Misc" := fun h => absurd (h ▸ hk) (by decide)
  simp [get_folder_path_for_category, hm, hcar, hcars, hsm, hrec, hum, hmisc,
    hf, hkids, hpers, hpur]

/-- C7 amended witness: the theorem applied to the concrete unknown,
prefix-free category Paperwork. -/
theorem C7_unknown_category_catch_all_amended_witness :
    get_folder_path_for_category ("Paperwork") (some ("Whatever")) =
      joinPath DOCUMENTS_BASE_PATH ("Misc. ") := by
  exact C7_unknown_category_catch_all_amended ("Paperwork") (some ("Whatever"))
    (by decide) (by decide) (by decide) (by decide) (by decide)

/-! Filing engine, the move itself: move_file_to_destination from
file-sort.py, over an explicit filesystem model: an association list from
paths to file identities, plus the CSV audit log contents. -/

/-- The filesystem state seen by the filing engine. -/
structure FS where
  files : List (String × Nat)
  csvlog : Option (List (List String))
deriving DecidableEq

/-- Lookup of a path in the association-list filesystem. -/
def fsLookup : List (String × Nat) → String → Option Nat
  | [], _ => none
  | (k, v) :: t, p => if k = p then some v else fsLookup t p

/-- Path.exists over the filesystem model. -/
def pathExists (fs : FS) (p : String) : Bool := (fsLookup fs.files p).isSome

/-- Removal of a path from the association-list filesystem. -/
def removeKey : List (String × Nat) → String → List (String × Nat)
  | [], _ => []
  | (k, v) :: t, p => if k = p then removeKey t p else (k, v) :: removeKey t p

/-- move_file_to_destination from file-sort.py: a falsy destination is
refused; a destination file that exists and is a different file is refused
before anything happens; otherwise the file is renamed to the destination
(a missing source makes the rename raise, caught as a false return) and one
audit record is appended. -/
def move_file_to_destination (fs : FS) (timestamp sourceDir sourceName : String)
    (destFolder : Option String) (originalFilename : Option String) : Bool × FS :=
  match destFolder with
  | none => (false, fs)
  | some dest =>
    let sourcePath := joinPath sourceDir sourceName
    let destFile := joinPath dest sourceName
    if pathExists fs destFile && destFile != sourcePath then (false, fs)
    else
      match fsLookup fs.files sourcePath with
      | none => (false, fs)
      | some fid =>
        (true, ⟨(destFile, fid) :: removeKey fs.files sourcePath,
          some (log_file_move fs.csvlog timestamp (originalFilename.getD sourceName) sourceName dest)⟩)

/-- Removing one key leaves lookups of any other key unchanged. -/
theorem fsLookup_removeKey_ne (l : List (String × Nat)) (k p : String) (h : k ≠ p) :
    fsLookup (removeKey l p) k = fsLookup l k := by
  induction l with
  | nil => rfl
  | cons a t ih =>
    obtain ⟨ka, va⟩ := a
    by_cases hk : ka = p
    · have hak : ka ≠ k := fun hh => h (by rw [← hh, hk])
      simp [removeKey, fsLookup, hk, hak, ih, Ne.symm h]
    · by_cases hak : ka = k <;> simp [removeKey, fsLookup, hk, hak, ih, h]

/-- C4: filing two distinct documents bearing the same filename into the
same destination folder: the first move succeeds; the second is refused
without raising: it returns false, leaves the audit log untouched, and
leaves the second document at its prior path. -/
theorem C4_collision_safety :
    ∀ (fs : FS) (d1 d2 D name : String) (id1 id2 : Nat) (ts1 ts2 : String),
      fsLookup fs.files (joinPath d1 name) = some id1 →
      fsLookup fs.files (joinPath d2 name) = some id2 →
      joinPath d1 name ≠ joinPath d2 name →
      fsLookup fs.files (joinPath D name) = none →
      ((move_file_to_destination fs ts1 d1 name (some D) none).1 = true) ∧
      ((move_file_to_destination (move_file_to_destination fs ts1 d1 name (some D) none).2
          ts2 d2 name (some D) none).1 = false) ∧
      ((move_file_to_destination (move_file_to_destination fs ts1 d1 name (some D) none).2
          ts2 d2 name (some D) none).2 = (move_file_to_destination fs ts1 d1 name (some D) none).2) ∧
      (fsLookup ((move_file_to_destination (move_file_to_destination fs ts1 d1 name (some D) none).2
          ts2 d2 name (some D) none).2).files (joinPath d2 name) = some id2) ∧
      (((move_file_to_destination (move_file_to_destination fs ts1 d1 name (some D) none).2
          ts2 d2 name (some D) none).2).csvlog =
        ((move_file_to_destination fs ts1 d1 name (some D) none).2).csvlog) := by
  intro fs d1 d2 D name id1 id2 ts1 ts2 h1 h2 hne hD
  have hDs2 : joinPath D name ≠ joinPath d2 name := by
    intro h
    rw [← h, hD] at h2
    exact Option.noConfusion h2
  have hs2d1 : joinPath d2 name ≠ joinPath d1 name := fun hh => hne hh.symm
  have e1 : move_file_to_destination fs ts1 d1 name (some D) none =
      (true, ⟨(joinPath D name, id1) :: removeKey fs.files (joinPath d1 name),
        some (log_file_move fs.csvlog ts1 name name D)⟩) := by
    simp [move_file_to_destination, pathExists, hD, h1]
  have e2 : move_file_to_destination (move_file_to_destination fs ts1 d1 name (some D) none).2
      ts2 d2 name (some D) none = (false, (move_file_to_destination fs ts1 d1 name (some D) none).2) := by
    rw [e1]
    simp [move_file_to_destination, pathExists, fsLookup, hDs2]
  refine ⟨by rw [e1], by rw [e2], by rw [e2], ?_, by rw [e2]⟩
  rw [e2, e1]
  simp only [fsLookup, if_neg hDs2]
  rw [fsLookup_removeKey_ne fs.files (joinPath d2 name) (joinPath d1 name) hs2d1]
  exact h2

/-- C4 witness: the theorem applied to a concrete filesystem holding two
distinct files both named a.pdf, filed one after the other into the same
destination folder. -/
theorem C4_collision_safety_witness :
    ((move_file_to_destination ⟨[("inbox/a.pdf", 1), ("elsewhere/a.pdf", 2)], none⟩
        "t1" "inbox" "a.pdf" (some ("dest")) none).1 = true) ∧
    ((move_file_to_destination (move_file_to_destination ⟨[("inbox/a.pdf", 1), ("elsewhere/a.pdf", 2)], none⟩
        "t1" "inbox" "a.pdf" (some ("dest")) none).2 "t2" "elsewhere" "a.pdf" (some ("dest")) none).1 = false) := by
  have h := C4_collision_safety ⟨[("inbox/a.pdf", 1), ("elsewhere/a.pdf", 2)], none⟩
    ("inbox") ("elsewhere") ("dest") ("a.pdf") 1 2 ("t1") ("t2")
    (by decide) (by decide) (by decide) (by decide)
  exact ⟨h.1, h.2.1⟩

/-! Run driver: the manual-override filename pattern and the per-file body
of main from file-sort.py. -/

/-- Consume exactly n leading decimal digits. -/
def eatDigits : Nat → List Char → Option (List Char)
  | 0, cs => some cs
  | _ + 1, [] => none
  | n + 1, c :: cs => if c.isDigit then eatDigits n cs else none

/-- Consume one expected literal character. -/
def eatLit (ch : Char) : List Char → Option (List Char)
  | [] => none
  | c :: cs => if c = ch then some cs else none

/-- Consume one or more whitespace characters, maximally; safe for the first
whitespace run of the pattern because the following literal is a hyphen,
which is not whitespace. -/
def eatSpaces1 : List Char → Option (List Char)
  | [] => none
  | c :: cs => if pyIsSpace c then some (cs.dropWhile pyIsSpace) else none

/-- Length of the maximal suffix free of newline characters. -/
def tailNoNewlineLen (cs : List Char) : Nat :=
  (cs.reverse.takeWhile (fun c => c ≠ '\n')).length

/-- Whether a character list splits as one-or-more whitespace characters
followed by one-or-more non-newline characters: the backtracking semantics
of the regex fragment between the second hyphen and the pdf suffix. -/
def spacesThenAny1 (body : List Char) : Bool :=
  let i := max 1 (body.length - tailNoNewlineLen body)
  decide (i < body.length) && (body.take i).all pyIsSpace

/-- The re.match of the manual-override pattern in main: four digits,
hyphen, two digits, hyphen, two digits, whitespace, hyphen, whitespace, at
least one non-newline description character, then the literal dot-p-d-f at
the end of the string (one trailing newline is allowed before the end
anchor, as for the dollar anchor of re). -/
def matches_rename_pattern (s : String) : Bool :=
  match ((((((eatDigits 4 s.data).bind (eatLit '-')).bind (eatDigits 2)).bind
      (eatLit '-')).bind (eatDigits 2)).bind eatSpaces1).bind (eatLit '-') with
  | none => false
  | some rem =>
    let core := if rem.getLast? = some '\n' then rem.dropLast else rem
    if core.drop (core.length - 4) = ['.', 'p', 'd', 'f'] then
      spacesThenAny1 (core.take (core.length - 4))
    else false

/-- Python str.endswith via character lists. -/
def strEndsWith (s p : String) : Bool := p.data.isSuffixOf s.data

/-- Environment of external outcomes for the processing of one inbox file:
its current name, the text produced by extraction, the raw assistant
responses for classification and for filename generation (none models a
failed call), the file creation date, whether the proposed rename target
already exists as a different file, and whether the rename call succeeds. -/
structure RunEnv where
  name : String
  text : String
  classifyResponse : Option String
  nameResponse : Option String
  createdDate : String
  renameTargetExists : Bool
  renameOk : Bool
deriving DecidableEq

/-- Observable outcome of processing one file: the name the file bears at
the end of the iteration, whether a rename was applied, whether the
classifier and the filename generator were invoked, the classification, and
the destination folder passed to move_file_to_destination (none when no
move is attempted and the file stays in the inbox). -/
structure RunOutcome where
  finalName : String
  renamed : Bool
  classifyCalled : Bool
  nameGenCalled : Bool
  category : Option String
  subcategory : Option String
  moveDest : Option String
deriving DecidableEq

/-- The per-file body of main from file-sort.py: skip files with no
extracted text; on a manual-override name (the date pattern) classify and
move without generating a name; otherwise classify, resolve the
destination, generate a filename, skip the rest of the iteration when
generation fails, else clean the name, add the pdf extension if missing,
rename unless the name is unchanged or the target exists or the rename
raises, and finally move exactly when a destination was resolved. -/
def process_file (env : RunEnv) : RunOutcome :=
  if env.text = "" then
    ⟨env.name, false, false, false, none, none, none⟩
  else if matches_rename_pattern env.name then
    let cs := classify_file_category env.classifyResponse
    match cs.1 with
    | some c => ⟨env.name, false, true, false, some c, cs.2, some (get_folder_path_for_category c cs.2)⟩
    | none => ⟨env.name, false, true, false, none, cs.2, none⟩
  else
    let cs := classify_file_category env.classifyResponse
    let destFolder := match cs.1 with
      | some c => some (get_folder_path_for_category c cs.2)
      | none => none
    match env.nameResponse with
    | none => ⟨env.name, false, true, true, cs.1, cs.2, none⟩
    | some raw =>
      if raw = "" then ⟨env.name, false, true, true, cs.1, cs.2, none⟩
      else
        let cleaned := strip_response raw
        let suggested := if strEndsWith cleaned (".pdf") then cleaned else cleaned ++ ".pdf"
        if env.name = suggested then
          ⟨env.name, false, true, true, cs.1, cs.2, destFolder⟩
        else if env.renameTargetExists then
          ⟨env.name, false, true, true, cs.1, cs.2, destFolder⟩
        else if env.renameOk then
          ⟨suggested, true, true, true, cs.1, cs.2, destFolder⟩
        else
          ⟨env.name, false, true, true, cs.1, cs.2, destFolder⟩

/-- C5: a file whose name already matches the manual-override date pattern
keeps its filename on every classification outcome: no name is generated
and no rename is applied, while the classifier is still invoked and the
move to the resolved destination is attempted whenever classification
yields a category. -/
theorem C5_manual_override_keeps_filename :
    ∀ env : RunEnv, env.text ≠ "" → matches_rename_pattern env.name = true →
      (process_file env).finalName = env.name ∧
      (process_file env).renamed = false ∧
      (process_file env).nameGenCalled = false ∧
      (process_file env).classifyCalled = true ∧
      (process_file env).moveDest =
        ((classify_file_category env.classifyResponse).1).map
          (fun c => get_folder_path_for_category c (classify_file_category env.classifyResponse).2) := by
  intro env htext hpat
  cases hcs : (classify_file_category env.classifyResponse).1 <;>
    simp [process_file, htext, hpat, hcs]

/-- C5 witness: the theorem applied to a concrete file already named in the
desired format and classified as Medical/Oliver. -/
theorem C5_manual_override_keeps_filename_witness :
    (process_file ⟨"2025-01-01 - x.pdf", "medical visit record for Oliver", some ("Medical/Oliver"),
      some ("2025-02-02 - Generated Name"), "2025-01-01", false, true⟩).finalName = "2025-01-01 - x.pdf" ∧
    (process_file ⟨"2025-01-01 - x.pdf", "medical visit record for Oliver", some ("Medical/Oliver"),
      some ("2025-02-02 - Generated Name"), "2025-01-01", false, true⟩).renamed = false := by
  have h := C5_manual_override_keeps_filename ⟨"2025-01-01 - x.pdf", "medical visit record for Oliver",
    some ("Medical/Oliver"), some ("2025-02-02 - Generated Name"), "2025-01-01", false, true⟩
    (by decide) (by decide)
  exact ⟨h.1, h.2.1⟩

/-- C8 counterexample: a successfully classified document whose filename
generation fails is not filed: the iteration is abandoned and no move is
attempted, contradicting the claim that only the rename is skipped. -/
theorem C8_counterexample :
    ((process_file ⟨"scan001.pdf", "utility bill text", some ("Misc"), none,
      "2025-01-01", false, true⟩).category = some ("Misc")) ∧
    ((process_file ⟨"scan001.pdf", "utility bill text", some ("Misc"), none,
      "2025-01-01", false, true⟩).moveDest = none) := by
  decide

/-- C8 amended: when the filename generator fails (a failed call or an empty
response) on a file not in manual-override form, the failure surfaces as
absence and the whole remainder of the iteration is skipped: no rename and
also no filing, so even a successfully classified document stays in the
inbox. -/
theorem C8_name_failure_skips_filing_amended :
    ∀ env : RunEnv, env.text ≠ "" → matches_rename_pattern env.name = false →
      (env.nameResponse = none ∨ env.nameResponse = some ("")) →
      (process_file env).finalName = env.name ∧
      (process_file env).renamed = false ∧
      (process_file env).nameGenCalled = true ∧
      (process_file env).classifyCalled = true ∧
      (process_file env).moveDest = none := by
  intro env htext hpat hresp
  rcases hresp with h | h <;> simp [process_file, htext, hpat, h]

/-- C8 amended witness: the theorem applied to a concrete classified file
whose filename generation times out. -/
theorem C8_name_failure_skips_filing_amended_witness :
    (process_file ⟨"scan002.pdf", "chase credit card statement", some ("Financial/Cards/Chase"), none,
      "2025-03-03", false, true⟩).moveDest = none ∧
    (process_file ⟨"scan002.pdf", "chase credit card statement", some ("Financial/Cards/Chase"), none,
      "2025-03-03", false, true⟩).renamed = false := by
  have h := C8_name_failure_skips_filing_amended ⟨"scan002.pdf", "chase credit card statement",
    some ("Financial/Cards/Chase"), none, "2025-03-03", false, true⟩
    (by decide) (by decide) (Or.inl rfl)
  exact ⟨h.2.2.2.2, h.2.1⟩

end FileSort
